import Mathlib

/-!
Verification of the media-mock stream engine and device-resolution logic.

The definitions below are a shallow embedding of the library's core
(`MediaMockClass` and its helpers): resolutions and constraint values are
plain numbers, floating-point arithmetic is modelled by exact rational
arithmetic, the asynchronous asset load is modelled by an explicit oracle
`String → Bool`, and mutable session state is passed explicitly.  A thrown
JavaScript exception is modelled by `Except.error`.
-/

namespace MediaMock

/-- A `{width, height}` pair from a device's `videoResolutions` list. -/
structure Resolution where
  width : Nat
  height : Nat
deriving DecidableEq

/-- A width/height constraint value: either a literal number or a
`ConstrainULong`-style object with optional `ideal` / `exact` / `max`
fields (absent fields are `none`, mirroring `undefined`). -/
inductive ConstraintValue where
  | num (n : Nat)
  | obj (ideal exact maxv : Option Nat)
deriving DecidableEq

/-- A `frameRate` constraint value: a literal number or a range object with
optional `ideal` / `exact` / `max` fields.  Numbers are rationals
(modelling JS floats). -/
inductive FrameRateValue where
  | num (q : ℚ)
  | obj (ideal exact maxv : Option ℚ)
deriving DecidableEq

/-- A `ConstrainDOMString` leaf: a plain string or an array of strings. -/
inductive DOMStringish where
  | str (s : String)
  | arr (l : List String)
deriving DecidableEq

/-- A `facingMode` constraint value: a string, or an object with optional
`ideal` / `exact` properties. -/
inductive FacingModeValue where
  | str (s : String)
  | obj (ideal exact : Option DOMStringish)
deriving DecidableEq

/-- The fields of `MediaTrackConstraints` that the engine inspects
(`width`, `height`, `frameRate`, `facingMode`); each is optional. -/
structure VideoConstraints where
  width : Option ConstraintValue
  height : Option ConstraintValue
  frameRate : Option FrameRateValue
  facingMode : Option FacingModeValue
deriving DecidableEq

/-- The empty constraint object `{}` used when `constraints.video` is not an
object. -/
def emptyVideoConstraints : VideoConstraints := ⟨none, none, none, none⟩

/--
`extractConstraintValue` from the source: a literal number is returned as
is; an object is read with the nullish-coalescing chain
`ideal ?? exact ?? max ?? defaultValue`; anything else gives the default.
-/
def extractConstraintValue (constraint : Option ConstraintValue)
    (defaultValue : Nat) : Nat :=
  match constraint with
  | some (.num n) => n
  | some (.obj ideal exact maxv) => ideal.getD (exact.getD (maxv.getD defaultValue))
  | none => defaultValue

/--
`findExactMatch` from the source.  First a direct `(width, height)` match is
searched; a direct match is swapped when the viewport is portrait and the
match is landscape-shaped.  Without a direct match, in portrait mode the
transposed target is searched and a hit is returned swapped.
-/
def findExactMatch (resolutions : List Resolution)
    (targetWidth targetHeight : Nat) (isPortrait : Bool) : Option Resolution :=
  match resolutions.find? (fun res =>
      res.width == targetWidth && res.height == targetHeight) with
  | some directMatch =>
    if isPortrait && directMatch.height < directMatch.width then
      some ⟨directMatch.height, directMatch.width⟩
    else
      some directMatch
  | none =>
    if isPortrait then
      match resolutions.find? (fun res =>
          res.width == targetHeight && res.height == targetWidth) with
      | some landscapeToSwap => some ⟨landscapeToSwap.height, landscapeToSwap.width⟩
      | none => none
    else
      none

/-- The per-candidate transposition of `findBestFitResolution`: in portrait
mode a landscape-shaped candidate is swapped before being scored. -/
def transposeIfPortrait (isPortrait : Bool) (res : Resolution) : Resolution :=
  if isPortrait ∧ res.height < res.width then ⟨res.height, res.width⟩ else res

/-- `width / height` as an exact rational (the JS float division). -/
def aspectRatioQ (res : Resolution) : ℚ := (res.width : ℚ) / (res.height : ℚ)

/-- `width * height` as a rational. -/
def pixelsQ (res : Resolution) : ℚ := (res.width : ℚ) * (res.height : ℚ)

/-- The best-fit score of a (possibly transposed) candidate against the
target: `aspectDiff * 2 + sizeDiff` with
`aspectDiff = |aspect - targetAspect|` and
`sizeDiff = |pixels - targetPixels| / targetPixels`. -/
def resolutionScore (target actualRes : Resolution) : ℚ :=
  |aspectRatioQ actualRes - aspectRatioQ target| * 2 +
    |pixelsQ actualRes - pixelsQ target| / pixelsQ target

/-- One step of selecting the lowest-scored candidate.  Keeping the current
best on ties reproduces `sort` (stable) followed by taking element 0: the
earliest candidate with the minimal score wins. -/
def pickLowerScore (best cand : Resolution × ℚ) : Resolution × ℚ :=
  if cand.2 < best.2 then cand else best

/-- The per-candidate body of the `resolutions.map` in
`findBestFitResolution`: transpose when appropriate, pair with the score. -/
def scoreCandidate (target : Resolution) (isPortrait : Bool)
    (res : Resolution) : Resolution × ℚ :=
  let actualRes := transposeIfPortrait isPortrait res
  (actualRes, resolutionScore target actualRes)

/--
`findBestFitResolution` from the source: every candidate is transposed when
appropriate, scored, and the lowest-scored candidate returned (`sort` is
stable, so ties keep the earliest candidate).  On an empty resolution list
the source evaluates `scoredResolutions[0].resolution` with
`scoredResolutions[0]` being `undefined` and throws a `TypeError`; that
exceptional outcome is modelled by `none`.
-/
def findBestFitResolution (resolutions : List Resolution)
    (targetWidth targetHeight : Nat) (isPortrait : Bool) : Option Resolution :=
  let target : Resolution := ⟨targetWidth, targetHeight⟩
  let scored := resolutions.map (scoreCandidate target isPortrait)
  match scored with
  | [] => none
  | x :: xs => some ((xs.foldl pickLowerScore x).1)

/--
`getFallbackResolution` from the source: 640×480 for an empty list;
otherwise in portrait mode the first portrait-shaped entry, or the first
entry swapped; in landscape mode the first landscape-shaped entry, or the
first entry.
-/
def getFallbackResolution (resolutions : List Resolution)
    (isPortrait : Bool) : Resolution :=
  match resolutions with
  | [] => ⟨640, 480⟩
  | first :: _ =>
    if isPortrait then
      match resolutions.find? (fun res => decide (res.width < res.height)) with
      | some portraitRes => portraitRes
      | none => ⟨first.height, first.width⟩
    else
      match resolutions.find? (fun res => decide (res.height ≤ res.width)) with
      | some landscapeRes => landscapeRes
      | none => first

/--
`getResolution` from the source.  `video = none` models a missing or
boolean `constraints.video` (replaced by `{}`).  The source tries
`findExactMatch`, then `findBestFitResolution`; since the latter either
returns an object or throws, the trailing `getFallbackResolution` branch of
the source is unreachable, and the thrown `TypeError` (empty resolution
list) is the `Except.error` case.
-/
def getResolution (video : Option VideoConstraints)
    (resolutions : List Resolution) (isPortrait : Bool) :
    Except String Resolution :=
  let videoConstraints := video.getD emptyVideoConstraints
  let targetWidth := extractConstraintValue videoConstraints.width 640
  let targetHeight := extractConstraintValue videoConstraints.height 480
  match findExactMatch resolutions targetWidth targetHeight isPortrait with
  | some matched => Except.ok matched
  | none =>
    match findBestFitResolution resolutions targetWidth targetHeight isPortrait with
    | some matched => Except.ok matched
    | none => Except.error "TypeError: cannot read properties of undefined"

/--
`getFPSFromConstraints` from the source.  The guard
`typeof constraints.video === "object" && constraints.video.frameRate`
makes a literal `0` (falsy) fall through to the default 30; a range object
is always truthy and is read as `frameRate.ideal || 30`, so `exact` and
`max` are ignored and a falsy `ideal` also gives 30.
-/
def getFPSFromConstraints (video : Option VideoConstraints) : ℚ :=
  match video with
  | none => 30
  | some vc =>
    match vc.frameRate with
    | none => 30
    | some (.num q) => if q = 0 then 30 else q
    | some (.obj ideal _ _) =>
      match ideal with
      | some q => if q = 0 then 30 else q
      | none => 30

/-- JS truthiness of a possibly-absent `ConstrainDOMString` value: absent
and the empty string are falsy, arrays (even empty) are truthy. -/
def domStringishTruthy : Option DOMStringish → Bool
  | none => false
  | some (.str s) => s != ""
  | some (.arr _) => true

/-- `Array.isArray(v) ? v[0] : v` — the string extracted from a
`ConstrainDOMString` value (`none` models `undefined`). -/
def domStringishFirst : Option DOMStringish → Option String
  | none => none
  | some (.str s) => some s
  | some (.arr l) => l.head?

/--
`getFacingModeFromConstraints` from the source: a truthy string is returned
directly; for an object, a truthy `ideal` wins, then a truthy `exact`;
otherwise `null`.  `none` models both `null` and `undefined` results.
-/
def getFacingModeFromConstraints (video : Option VideoConstraints) :
    Option String :=
  match video with
  | none => none
  | some vc =>
    match vc.facingMode with
    | none => none
    | some (.str s) => if s = "" then none else some s
    | some (.obj ideal exact) =>
      if domStringishTruthy ideal then domStringishFirst ideal
      else if domStringishTruthy exact then domStringishFirst exact
      else none

/-- The capability record returned by a mock device's `getCapabilities`.
Only `facingMode` is inspected by the engine's device selection; `none`
models an absent (or non-array) `facingMode` entry. -/
structure Capabilities where
  facingMode : Option (List String)
deriving DecidableEq

/-- A `MockMediaDeviceInfo` record: identity fields plus the capability
record returned by `getCapabilities()`. -/
structure MockMediaDeviceInfo where
  deviceId : String
  groupId : String
  kind : String
  label : String
  capabilities : Capabilities
deriving DecidableEq

/-- A device preset (`DeviceConfig`): resolutions, device-info list and the
supported-constraints map (modelled as an association list). -/
structure DeviceConfig where
  videoResolutions : List Resolution
  mediaDeviceInfo : List MockMediaDeviceInfo
  supportedConstraints : List (String × Bool)
deriving DecidableEq

/-- `device.mediaDeviceInfo.filter((d) => d.kind === "videoinput")`. -/
def videoInputs (device : DeviceConfig) : List MockMediaDeviceInfo :=
  device.mediaDeviceInfo.filter (fun d => d.kind == "videoinput")

/-- Whether a device-info entry's capability set advertises the given
facing mode: `Array.isArray(capabilities.facingMode) &&
capabilities.facingMode.includes(facingMode)`. -/
def advertisesFacingMode (facingMode : String) (d : MockMediaDeviceInfo) : Bool :=
  match d.capabilities.facingMode with
  | some modes => modes.contains facingMode
  | none => false

/-- The video-input entries advertising the given facing mode. -/
def matchingFacingModeDevices (facingMode : String) (device : DeviceConfig) :
    List MockMediaDeviceInfo :=
  (videoInputs device).filter (advertisesFacingMode facingMode)

/-- JS truthiness of the facing-mode string handed to
`getDeviceForFacingMode` (`null`, `undefined` and `""` are falsy). -/
def facingModeTruthy : Option String → Bool
  | none => false
  | some s => s != ""

/--
`getDeviceForFacingMode` from the source: `undefined` without video-input
entries; the first video-input entry when no (truthy) facing mode was
requested or nothing matches; otherwise the last matching entry.
-/
def getDeviceForFacingMode (facingMode : Option String)
    (device : DeviceConfig) : Option MockMediaDeviceInfo :=
  let videoDevices := videoInputs device
  if videoDevices.isEmpty then none
  else if !(facingModeTruthy facingMode) then videoDevices.head?
  else
    let fm := facingMode.getD ""
    let matchingDevices := matchingFacingModeDevices fm device
    if matchingDevices.isEmpty then videoDevices.head?
    else matchingDevices.getLast?

/-- The observable identity of a synthesized video track. -/
structure Track where
  label : String
  id : String
deriving DecidableEq

/--
The label/id overriding performed on each synthesized track in
`getMockStream`: `label` is overridden when `videoDevice?.label` is truthy,
`id` when `videoDevice?.deviceId` is truthy.
-/
def applyTrackIdentity (videoDevice : Option MockMediaDeviceInfo)
    (track : Track) : Track :=
  match videoDevice with
  | none => track
  | some d =>
    let track1 := if d.label != "" then { track with label := d.label } else track
    if d.deviceId != "" then { track1 with id := d.deviceId } else track1

/-- The track identity produced by `getMockStream` for given constraints
and active device: facing mode extracted from the constraints, device
selected by `getDeviceForFacingMode`, identity overridden. -/
def mockStreamTrackIdentity (video : Option VideoConstraints)
    (device : DeviceConfig) (track : Track) : Track :=
  applyTrackIdentity
    (getDeviceForFacingMode (getFacingModeFromConstraints video) device) track

/-- The `defaultSupportedConstraints` map shared by all built-in device
presets, as an association list in source order. -/
def defaultSupportedConstraints : List (String × Bool) :=
  [("aspectRatio", true), ("deviceId", true), ("displaySurface", true),
   ("echoCancellation", true), ("facingMode", true), ("frameRate", true),
   ("groupId", false), ("height", true), ("sampleRate", false),
   ("sampleSize", false), ("torch", false), ("volume", true),
   ("whiteBalanceMode", true), ("width", true), ("zoom", true)]

/-- The `iPhone 12` device preset from the source data: three landscape
resolutions and four video-input entries (front camera facing `user`, three
back cameras facing `environment`). -/
def iPhone12 : DeviceConfig :=
  { videoResolutions := [⟨1920, 1080⟩, ⟨1280, 720⟩, ⟨640, 480⟩]
    mediaDeviceInfo :=
      [⟨"A7FB77364106629BF38E043E6B000EE5FD680B9B",
        "C1B048C04520A18C3611DC837450814245482489", "videoinput",
        "Front Camera", ⟨some ["user"]⟩⟩,
       ⟨"9729B396E0C2B460BC7B69C0E368EB0B605058A9",
        "A1F2417053FF79495E7D01AF37A6C4461CE0C060", "videoinput",
        "Back Dual Wide Camera", ⟨some ["environment"]⟩⟩,
       ⟨"0B74C1149038CA5235F6C2325E53AE22AA920379",
        "B402A3862F28FB8D54BDF33BD7D41874FE175517", "videoinput",
        "Back Ultra Wide Camera", ⟨some ["environment"]⟩⟩,
       ⟨"C92FE814FCB4F2F856CDCBFD1C555429774DD0E2",
        "14122C2CE97B69A84360822AB87E8206C32B5BD8", "videoinput",
        "Back Camera", ⟨some ["environment"]⟩⟩]
    supportedConstraints := defaultSupportedConstraints }

/-- The mutable `settings` record of `MediaMockClass`. -/
structure Settings where
  mediaURL : String
  device : DeviceConfig
  constraints : List (String × Bool)
  canvasScaleFactor : ℚ
  mediaTimeout : ℚ
deriving DecidableEq

/-- The observable session state of `MediaMockClass`: `settings`, the
loaded media elements (by source URL), the interception map (keys of
`mapUnmockFunction`), the active stream, the render-loop handles, the
debug flag, canvas/context presence, the debug DOM attachment flags, and
the log of dispatched `devicechange` events. -/
structure MediaMockState where
  settings : Settings
  currentImage : Option String
  currentVideo : Option String
  mapUnmockFunction : List String
  currentStream : Option (List Track)
  intervalId : Option Nat
  rafId : Option Nat
  debug : Bool
  canvas : Option Unit
  ctx : Option Unit
  lastDrawTime : ℚ
  canvasInDom : Bool
  imageInDom : Bool
  dispatchedEvents : List String
deriving DecidableEq

/-- The initial field values of the `MediaMock` singleton (a 1×1 PNG data
URI, the `iPhone 12` preset, its supported constraints, scale factor 1 and
a 60-second media timeout). -/
def initialState : MediaMockState :=
  { settings :=
      { mediaURL := "data:image/png;base64,iVBORw0KGgoAAAANSUhEUgAAAAEAAAABCAQAAAC1HAwCAAAAC0lEQVR42mP8/w8AAgMBgQn2nAAAAABJRU5ErkJggg=="
        device := iPhone12
        constraints := iPhone12.supportedConstraints
        canvasScaleFactor := 1
        mediaTimeout := 60000 }
    currentImage := none
    currentVideo := none
    mapUnmockFunction := []
    currentStream := none
    intervalId := none
    rafId := none
    debug := false
    canvas := none
    ctx := none
    lastDrawTime := 0
    canvasInDom := false
    imageInDom := false
    dispatchedEvents := [] }

/-- A caller-built device preset whose supported-constraints map differs
from the shared `defaultSupportedConstraints` of the built-in presets. -/
def customPreset : DeviceConfig :=
  { videoResolutions := [⟨640, 480⟩]
    mediaDeviceInfo := []
    supportedConstraints := [("width", false)] }

/-- The video extension list of `isVideoURL`. -/
def videoExtensions : List String :=
  ["mp4", "webm", "ogg", "mov", "avi", "mkv", "flv", "wmv", "m4v", "3gp",
   "mpg", "mpeg", "asf", "rm", "vob"]

/-- `isVideoURL` from the source: the URL's last dot-separated segment,
lowercased, is looked up in the extension list. -/
def isVideoURL (url : String) : Bool :=
  let extension := ((url.splitOn ".").getLast?).map String.toLower
  videoExtensions.contains (extension.getD "")

/-- A successfully loaded media element, carrying its source URL. -/
inductive LoadedMedia where
  | image (src : String)
  | video (src : String)
deriving DecidableEq

/--
`loadMedia` from the source, with the asynchronous environment (image
decode, video readiness, timeout) abstracted by the oracle `env`: when the
load succeeds the element kind is decided by `isVideoURL`, otherwise the
rejection is the propagated load/timeout error.
-/
def loadMedia (env : String → Bool) (url : String) : Except String LoadedMedia :=
  if env url then
    Except.ok (if isVideoURL url then .video url else .image url)
  else
    Except.error ("Failed to load media: " ++ url)

/-- `stopDrawingLoop` from the source: cancel both kinds of handle and
reset `lastDrawTime`. -/
def stopDrawingLoop (st : MediaMockState) : MediaMockState :=
  { st with rafId := none, intervalId := none, lastDrawTime := 0 }

/-- The handle scheduling shared by `startVideoDrawingLoop` and
`startImageDrawingLoop`: a RequestAnimationFrame handle when RAF is
supported, otherwise a `setInterval` handle. -/
def scheduleLoopHandle (rafSupported : Bool) (handle : Nat)
    (st : MediaMockState) : MediaMockState :=
  if rafSupported then { st with rafId := some handle }
  else { st with intervalId := some handle }

/--
`startDrawingLoop` from the source: any existing loop is stopped first;
then, if the current media URL is a video (resp. image) URL but no video
(resp. image) element is loaded, an error is thrown — with the handles
already cleared — otherwise exactly one new handle is scheduled.
-/
def startDrawingLoop (rafSupported : Bool) (handle : Nat)
    (st : MediaMockState) : Except String Unit × MediaMockState :=
  let st1 := stopDrawingLoop st
  if isVideoURL st1.settings.mediaURL then
    match st1.currentVideo with
    | none => (Except.error "Video media not loaded", st1)
    | some _ => (Except.ok (), scheduleLoopHandle rafSupported handle st1)
  else
    match st1.currentImage with
    | none => (Except.error "Image media not loaded", st1)
    | some _ => (Except.ok (), scheduleLoopHandle rafSupported handle st1)

/-- `mediaURL.trim() === ""`: the string consists of whitespace only
(equivalently, trimming leaves the empty string). -/
def isWhitespaceOnly (s : String) : Bool :=
  s.toList.all Char.isWhitespace

/--
`setMediaURL` from the source: reject an empty or whitespace-only URL
(`!mediaURL || mediaURL.trim() === ""`) before anything else; load (and
validate) the new media before touching `settings`; only after a
successful load update `settings.mediaURL`, replace the loaded element,
and restart the drawing loop when one is active.  The returned state is
the state at settlement time, so a validation or load failure leaves the
state untouched.
-/
def setMediaURL (env : String → Bool) (rafSupported : Bool) (handle : Nat)
    (st : MediaMockState) (mediaURL : String) :
    Except String Unit × MediaMockState :=
  if mediaURL = "" ∨ isWhitespaceOnly mediaURL = true then
    (Except.error "Invalid mediaURL: must be a non-empty string", st)
  else
    match loadMedia env mediaURL with
    | Except.error e => (Except.error e, st)
    | Except.ok media =>
      let st1 := { st with settings := { st.settings with mediaURL := mediaURL } }
      let st2 :=
        match media with
        | .image src => { st1 with currentImage := some src, currentVideo := none }
        | .video src => { st1 with currentVideo := some src, currentImage := none }
      if st2.intervalId.isSome || st2.rafId.isSome then
        startDrawingLoop rafSupported handle st2
      else
        (Except.ok (), st2)

/-- `triggerDeviceChange` from the source: dispatch one `devicechange`
event on the media-devices namespace. -/
def triggerDeviceChange (st : MediaMockState) : MediaMockState :=
  { st with dispatchedEvents := st.dispatchedEvents ++ ["devicechange"] }

/-- `addMockDevice` from the source: push the new device-info entry onto
the active preset's list and dispatch one `devicechange` event. -/
def addMockDevice (st : MediaMockState) (newDevice : MockMediaDeviceInfo) :
    MediaMockState :=
  let newList := st.settings.device.mediaDeviceInfo ++ [newDevice]
  let st1 :=
    { st with settings :=
        { st.settings with device :=
            { st.settings.device with mediaDeviceInfo := newList } } }
  triggerDeviceChange st1

/-- `removeMockDevice` from the source: drop every entry with the given
`deviceId` and dispatch one `devicechange` event. -/
def removeMockDevice (st : MediaMockState) (deviceId : String) :
    MediaMockState :=
  let newList :=
    st.settings.device.mediaDeviceInfo.filter
      (fun device => device.deviceId != deviceId)
  let st1 :=
    { st with settings :=
        { st.settings with device :=
            { st.settings.device with mediaDeviceInfo := newList } } }
  triggerDeviceChange st1

/-- `disableDebugMode` from the source: clear the debug flag and remove the
debug canvas/image elements from the document. -/
def disableDebugMode (st : MediaMockState) : MediaMockState :=
  { st with debug := false, canvasInDom := false, imageInDom := false }

/-- `stopMockStream` from the source: stop the drawing loop, stop and drop
the active stream, dispose both media elements, and drop the canvas (also
removing it from the document) and its context. -/
def stopMockStream (st : MediaMockState) : MediaMockState :=
  let st1 := stopDrawingLoop st
  { st1 with currentStream := none, currentVideo := none, currentImage := none,
             canvas := none, canvasInDom := false, ctx := none }

/-- `unmock` from the source: `stopMockStream`, then `disableDebugMode`,
then invoke every stored restore function and clear the interception map.
Every step is guarded in the source (optional chaining, null checks), so no
call in the sequence throws. -/
def unmock (st : MediaMockState) : MediaMockState :=
  let st1 := stopMockStream st
  let st2 := disableDebugMode st1
  { st2 with mapUnmockFunction := [] }

/-- The per-entry-point interception flags of `MockOptions.mediaDevices`. -/
structure MockOptions where
  getUserMedia : Bool
  getSupportedConstraints : Bool
  enumerateDevices : Bool
deriving DecidableEq

/-- `createDefaultMockOptions` from the source: all three entry points
intercepted. -/
def createDefaultMockOptions : MockOptions := ⟨true, true, true⟩

/-- `Map.set` on the interception map, modelled on its key set: a fresh key
is appended, an existing key keeps its position (its restore function is
overwritten). -/
def mapSet (m : List String) (key : String) : List String :=
  if m.contains key then m else m ++ [key]

/--
`mock` from the source: the active device preset is replaced, and for each
enabled option the corresponding entry point is intercepted and its restore
function recorded.  Note that `settings.constraints` is not touched.
-/
def mock (st : MediaMockState) (device : DeviceConfig)
    (options : MockOptions) : MediaMockState :=
  let st1 := { st with settings := { st.settings with device := device } }
  let st2 :=
    if options.getUserMedia then
      { st1 with mapUnmockFunction := mapSet st1.mapUnmockFunction "getUserMedia" }
    else st1
  let st3 :=
    if options.getSupportedConstraints then
      { st2 with mapUnmockFunction := mapSet st2.mapUnmockFunction "getSupportedConstraints" }
    else st2
  if options.enumerateDevices then
    { st3 with mapUnmockFunction := mapSet st3.mapUnmockFunction "enumerateDevices" }
  else st3

/-- The body of the intercepted `getSupportedConstraints`:
`return this.settings.constraints`. -/
def interceptedGetSupportedConstraints (st : MediaMockState) :
    List (String × Bool) :=
  st.settings.constraints

/-- The body of the intercepted `enumerateDevices`:
`this.settings.device.mediaDeviceInfo`. -/
def interceptedEnumerateDevices (st : MediaMockState) :
    List MockMediaDeviceInfo :=
  st.settings.device.mediaDeviceInfo

/--
The session transitions that can touch the render-loop handles, plus an
abstract step covering every operation that leaves both handles unchanged
(`mock`, `addMockDevice`, `removeMockDevice`, the setters, debug toggling):

* `start`: `startDrawingLoop` (also the tail of a successful `setMediaURL`
  and of `getMockStream`), in either its successful or its throwing run;
* `stop`: `stopDrawingLoop` (also the head of `stopMockStream`);
* `unmockStep`: the full `unmock`;
* `setMedia`: a full `setMediaURL` call, whatever its outcome;
* `tick`: a RequestAnimationFrame callback run, which re-schedules itself
  (it only fires while its handle is the registered one);
* `preserves`: any operation not touching the handles.
-/
inductive LoopStep : MediaMockState → MediaMockState → Prop
  | start (rafSupported : Bool) (handle : Nat) (st : MediaMockState) :
      LoopStep st (startDrawingLoop rafSupported handle st).2
  | stop (st : MediaMockState) : LoopStep st (stopDrawingLoop st)
  | unmockStep (st : MediaMockState) : LoopStep st (unmock st)
  | setMedia (env : String → Bool) (rafSupported : Bool) (handle : Nat)
      (url : String) (st : MediaMockState) :
      LoopStep st (setMediaURL env rafSupported handle st url).2
  | tick (handle handle0 : Nat) (st : MediaMockState) :
      st.rafId = some handle0 → LoopStep st { st with rafId := some handle }
  | preserves (st st' : MediaMockState) : st'.rafId = st.rafId →
      st'.intervalId = st.intervalId → LoopStep st st'

/-- The session states reachable from the initial singleton state through
the render-loop-relevant transitions. -/
inductive LoopReachable : MediaMockState → Prop
  | init : LoopReachable initialState
  | step (st st' : MediaMockState) :
      LoopReachable st → LoopStep st st' → LoopReachable st'

/-! ## Helper lemmas -/

theorem pickLowerScore_cases (best cand : Resolution × ℚ) :
    pickLowerScore best cand = best ∨ pickLowerScore best cand = cand := by
  unfold pickLowerScore
  by_cases h : cand.2 < best.2
  · exact Or.inr (if_pos h)
  · exact Or.inl (if_neg h)

theorem pickLowerScore_le (best cand : Resolution × ℚ) :
    (pickLowerScore best cand).2 ≤ best.2 ∧
      (pickLowerScore best cand).2 ≤ cand.2 := by
  unfold pickLowerScore
  by_cases h : cand.2 < best.2
  · rw [if_pos h]; exact ⟨le_of_lt h, le_rfl⟩
  · rw [if_neg h]; exact ⟨le_rfl, le_of_not_lt h⟩

theorem foldl_pickLowerScore_mem (xs : List (Resolution × ℚ))
    (x : Resolution × ℚ) :
    xs.foldl pickLowerScore x = x ∨ xs.foldl pickLowerScore x ∈ xs := by
  induction xs generalizing x with
  | nil => exact Or.inl rfl
  | cons a t ih =>
    rw [List.foldl_cons]
    rcases ih (pickLowerScore x a) with h | h
    · rcases pickLowerScore_cases x a with hc | hc
      · exact Or.inl (h.trans hc)
      · exact Or.inr (by rw [h, hc]; exact List.mem_cons_self a t)
    · exact Or.inr (List.mem_cons_of_mem a h)

theorem foldl_pickLowerScore_le (xs : List (Resolution × ℚ))
    (x : Resolution × ℚ) :
    (xs.foldl pickLowerScore x).2 ≤ x.2 ∧
      ∀ y ∈ xs, (xs.foldl pickLowerScore x).2 ≤ y.2 := by
  induction xs generalizing x with
  | nil =>
    refine ⟨le_rfl, ?_⟩
    intro y hy
    exact absurd hy (List.not_mem_nil y)
  | cons a t ih =>
    rw [List.foldl_cons]
    obtain ⟨h1, h2⟩ := ih (pickLowerScore x a)
    have hx := (pickLowerScore_le x a).1
    have ha := (pickLowerScore_le x a).2
    refine ⟨h1.trans hx, ?_⟩
    intro y hy
    rcases List.mem_cons.mp hy with rfl | hyt
    · exact h1.trans ha
    · exact h2 y hyt

/-- The lowest-scored candidate returned by `findBestFitResolution` on a
non-empty list: it is the (possibly transposed) image of a list member, and
its score is minimal among all (possibly transposed) candidates. -/
theorem findBestFitResolution_spec (resolutions : List Resolution)
    (targetWidth targetHeight : Nat) (isPortrait : Bool)
    (hne : resolutions ≠ []) :
    ∃ res, findBestFitResolution resolutions targetWidth targetHeight
        isPortrait = some res ∧
      (∃ r ∈ resolutions, res = transposeIfPortrait isPortrait r) ∧
      ∀ r ∈ resolutions,
        resolutionScore ⟨targetWidth, targetHeight⟩ res ≤
          resolutionScore ⟨targetWidth, targetHeight⟩
            (transposeIfPortrait isPortrait r) := by
  obtain ⟨r0, rest, rfl⟩ := List.exists_cons_of_ne_nil hne
  have hdef : findBestFitResolution (r0 :: rest) targetWidth targetHeight
      isPortrait =
      some (((rest.map (scoreCandidate ⟨targetWidth, targetHeight⟩
        isPortrait)).foldl pickLowerScore
        (scoreCandidate ⟨targetWidth, targetHeight⟩ isPortrait r0)).1) := rfl
  set F := scoreCandidate ⟨targetWidth, targetHeight⟩ isPortrait with hF
  set z := (rest.map F).foldl pickLowerScore (F r0) with hz
  have hmem : z = F r0 ∨ z ∈ rest.map F := foldl_pickLowerScore_mem _ _
  have hmin := foldl_pickLowerScore_le (rest.map F) (F r0)
  have hzF : ∃ r ∈ r0 :: rest, z = F r := by
    rcases hmem with h | h
    · exact ⟨r0, List.mem_cons_self r0 rest, h⟩
    · obtain ⟨r, hr, hrz⟩ := List.mem_map.mp h
      exact ⟨r, List.mem_cons_of_mem r0 hr, hrz.symm⟩
  obtain ⟨r, hr, hzr⟩ := hzF
  refine ⟨z.1, hdef, ⟨r, hr, by rw [hzr]; rfl⟩, ?_⟩
  intro r' hr'
  have hz2 : z.2 = resolutionScore ⟨targetWidth, targetHeight⟩ z.1 := by
    rw [hzr]; rfl
  rw [← hz2]
  rcases List.mem_cons.mp hr' with rfl | hrt
  · exact hmin.1.trans_eq rfl
  · exact hmin.2 (F r') (List.mem_map.mpr ⟨r', hrt, rfl⟩)

/-! ## Claim theorems -/

/--
C1: for every device resolution list, if the target `(width, height)`
extracted from the constraints literally matches a list entry, the viewport
is portrait, and that entry is landscape-shaped (`width > height`, which
for a literal match means `targetWidth > targetHeight`), `findExactMatch`
returns the swapped dimensions `{width := entry.height, height :=
entry.width}`; and if no entry matches the target directly and the
viewport is portrait, an entry equal to the transposed target
`(targetHeight, targetWidth)` is also found and returned swapped.
-/
theorem findExactMatch_portrait_swap (resolutions : List Resolution)
    (targetWidth targetHeight : Nat) :
    ((∃ e ∈ resolutions, e.width = targetWidth ∧ e.height = targetHeight) →
      targetHeight < targetWidth →
      findExactMatch resolutions targetWidth targetHeight true =
        some ⟨targetHeight, targetWidth⟩) ∧
    ((∀ e ∈ resolutions, ¬(e.width = targetWidth ∧ e.height = targetHeight)) →
      (∃ e ∈ resolutions, e.width = targetHeight ∧ e.height = targetWidth) →
      findExactMatch resolutions targetWidth targetHeight true =
        some ⟨targetWidth, targetHeight⟩) := by
  constructor
  · rintro ⟨e, he, hw, hh⟩ hlt
    have hex : ∃ x ∈ resolutions,
        (x.width == targetWidth && x.height == targetHeight) = true :=
      ⟨e, he, by simp [hw, hh]⟩
    obtain ⟨e1, he1⟩ := Option.isSome_iff_exists.mp (List.find?_isSome.mpr hex)
    have hp := List.find?_some he1
    simp only [Bool.and_eq_true, beq_iff_eq] at hp
    unfold findExactMatch
    rw [he1]
    have hcond : (true && decide (e1.height < e1.width)) = true := by
      simp [hp.1, hp.2, hlt]
    simp only [hcond, if_true, Option.some.injEq]
    rw [hp.1, hp.2]
  · intro hnone hswap
    have hfind : resolutions.find? (fun res =>
        res.width == targetWidth && res.height == targetHeight) = none := by
      rw [List.find?_eq_none]
      intro x hx
      simp only [Bool.and_eq_true, beq_iff_eq]
      exact fun h => hnone x hx h
    obtain ⟨e, he, hw, hh⟩ := hswap
    have hex : ∃ x ∈ resolutions,
        (x.width == targetHeight && x.height == targetWidth) = true :=
      ⟨e, he, by simp [hw, hh]⟩
    obtain ⟨e1, he1⟩ := Option.isSome_iff_exists.mp (List.find?_isSome.mpr hex)
    have hp := List.find?_some he1
    simp only [Bool.and_eq_true, beq_iff_eq] at hp
    unfold findExactMatch
    rw [hfind, he1]
    simp only [if_true, Option.some.injEq]
    rw [hp.1, hp.2]

/-- Witness for C1 at the spec's fixture: device list
`[{1920,1080},{1280,720},{640,480}]`, portrait viewport, target 1280×720
resolves to the swapped `{720,1280}`. -/
theorem findExactMatch_portrait_swap_witness :
    findExactMatch [⟨1920, 1080⟩, ⟨1280, 720⟩, ⟨640, 480⟩] 1280 720 true =
      some ⟨720, 1280⟩ :=
  (findExactMatch_portrait_swap [⟨1920, 1080⟩, ⟨1280, 720⟩, ⟨640, 480⟩]
    1280 720).1 ⟨⟨1280, 720⟩, by decide, rfl, rfl⟩ (by decide)

/--
C2: for every non-empty device resolution list with no exact match for the
target extracted from the constraints (and non-degenerate dimensions, so
that the rational model agrees with the JS float divisions), the resolution
resolver returns a candidate that is a possibly-transposed member of the
list — never an invented resolution — whose score
`2 * |aspect - targetAspect| + |pixels - targetPixels| / targetPixels`
is minimal among all (possibly transposed) candidates.
-/
theorem getResolution_best_fit (video : Option VideoConstraints)
    (resolutions : List Resolution) (isPortrait : Bool)
    (targetWidth targetHeight : Nat)
    (htw : extractConstraintValue (video.getD emptyVideoConstraints).width 640 =
      targetWidth)
    (hth : extractConstraintValue (video.getD emptyVideoConstraints).height 480 =
      targetHeight)
    (hne : resolutions ≠ [])
    (hnoexact : findExactMatch resolutions targetWidth targetHeight isPortrait =
      none)
    (htw0 : 0 < targetWidth) (hth0 : 0 < targetHeight)
    (hpos : ∀ r ∈ resolutions, 0 < r.width ∧ 0 < r.height) :
    ∃ res, getResolution video resolutions isPortrait = Except.ok res ∧
      (∃ r ∈ resolutions, res = transposeIfPortrait isPortrait r) ∧
      ∀ r ∈ resolutions,
        resolutionScore ⟨targetWidth, targetHeight⟩ res ≤
          resolutionScore ⟨targetWidth, targetHeight⟩
            (transposeIfPortrait isPortrait r) := by
  obtain ⟨res, hbf, hmem, hmin⟩ :=
    findBestFitResolution_spec resolutions targetWidth targetHeight isPortrait hne
  refine ⟨res, ?_, hmem, hmin⟩
  unfold getResolution
  dsimp only
  rw [htw, hth, hnoexact, hbf]

/-- Witness for C2: target 500×500 (not in the landscape list), landscape
viewport; the resolver returns a member of the list with minimal score. -/
theorem getResolution_best_fit_witness :
    ∃ res, getResolution (some ⟨some (.num 500), some (.num 500), none, none⟩)
        [⟨1920, 1080⟩, ⟨640, 480⟩] false = Except.ok res ∧
      (∃ r ∈ [(⟨1920, 1080⟩ : Resolution), ⟨640, 480⟩],
        res = transposeIfPortrait false r) ∧
      ∀ r ∈ [(⟨1920, 1080⟩ : Resolution), ⟨640, 480⟩],
        resolutionScore ⟨500, 500⟩ res ≤
          resolutionScore ⟨500, 500⟩ (transposeIfPortrait false r) :=
  getResolution_best_fit (some ⟨some (.num 500), some (.num 500), none, none⟩)
    [⟨1920, 1080⟩, ⟨640, 480⟩] false 500 500 rfl rfl (by decide) (by decide)
    (by decide) (by decide) (by decide)

/--
C3: with an empty device resolution list (and any constraint set and
viewport orientation) the resolver does not return the hardcoded 640×480
fallback: `findBestFitResolution` dereferences element 0 of the empty
scored list and throws a `TypeError`, so `getResolution` never reaches
`getFallbackResolution` — whose own empty-list branch (the intended
"ultimate fallback") does return 640×480.
-/
theorem getResolution_empty_list_throws :
    (∀ (video : Option VideoConstraints) (isPortrait : Bool),
      getResolution video [] isPortrait =
        Except.error "TypeError: cannot read properties of undefined") ∧
    (∀ isPortrait, getFallbackResolution [] isPortrait = ⟨640, 480⟩) := by
  constructor
  · intro video isPortrait
    unfold getResolution findExactMatch findBestFitResolution
    simp
  · intro isPortrait
    rfl

/--
C10 counterexample: the claim says a literal numeric `video.frameRate`
yields the literal value, but the literal `0` is falsy in the source's
guard, so `getFPSFromConstraints` yields 30, not 0.
-/
theorem getFPSFromConstraints_zero_literal :
    getFPSFromConstraints (some ⟨none, none, some (.num 0), none⟩) = 30 ∧
      (30 : ℚ) ≠ 0 := by
  constructor
  · simp [getFPSFromConstraints]
  · norm_num

/--
C10 (amended): the frame rate used for the synthesized stream is the
literal value when `video.frameRate` is a nonzero number (a literal `0`,
being falsy, yields 30); `frameRate.ideal` when it is a range object whose
`ideal` is truthy (nonzero); and 30 in every other case — in particular a
range object carrying only `exact` or `max` (e.g. `{exact: 24}`) and an
`ideal` of 0 both yield 30, unlike the `ideal > exact > max > default`
precedence used by `extractConstraintValue` for width and height, which
does honour `exact`.
-/
theorem getFPSFromConstraints_spec (w h : Option ConstraintValue)
    (fm : Option FacingModeValue) (q : ℚ) (e m : Option ℚ) :
    getFPSFromConstraints none = 30 ∧
    getFPSFromConstraints (some ⟨w, h, none, fm⟩) = 30 ∧
    (q ≠ 0 → getFPSFromConstraints (some ⟨w, h, some (.num q), fm⟩) = q) ∧
    getFPSFromConstraints (some ⟨w, h, some (.num 0), fm⟩) = 30 ∧
    (q ≠ 0 →
      getFPSFromConstraints (some ⟨w, h, some (.obj (some q) e m), fm⟩) = q) ∧
    getFPSFromConstraints (some ⟨w, h, some (.obj (some 0) e m), fm⟩) = 30 ∧
    getFPSFromConstraints (some ⟨w, h, some (.obj none e m), fm⟩) = 30 ∧
    extractConstraintValue (some (.obj none (some 24) none)) 640 = 24 ∧
    getFPSFromConstraints (some ⟨w, h, some (.obj none (some 24) none), fm⟩) =
      30 := by
  refine ⟨rfl, rfl, ?_, ?_, ?_, ?_, rfl, rfl, rfl⟩
  · intro hq
    simp [getFPSFromConstraints, hq]
  · simp [getFPSFromConstraints]
  · intro hq
    simp [getFPSFromConstraints, hq]
  · simp [getFPSFromConstraints]

/-- Witness for C10 (amended): a literal nonzero frame rate of 24 is used
verbatim. -/
theorem getFPSFromConstraints_spec_witness :
    getFPSFromConstraints (some ⟨none, none, some (.num 24), none⟩) = 24 :=
  (getFPSFromConstraints_spec none none none 24 none none).2.2.1 (by norm_num)

theorem scheduleLoopHandle_settings (rafSupported : Bool) (handle : Nat)
    (s : MediaMockState) :
    (scheduleLoopHandle rafSupported handle s).settings = s.settings := by
  unfold scheduleLoopHandle
  split <;> rfl

theorem startDrawingLoop_settings (rafSupported : Bool) (handle : Nat)
    (s : MediaMockState) :
    (startDrawingLoop rafSupported handle s).2.settings = s.settings := by
  unfold startDrawingLoop
  dsimp only
  split
  · split
    · rfl
    · rw [scheduleLoopHandle_settings]; rfl
  · split
    · rfl
    · rw [scheduleLoopHandle_settings]; rfl

theorem setMediaURL_mediaURL_of_ok (env : String → Bool)
    (rafSupported : Bool) (handle : Nat) (st : MediaMockState)
    (mediaURL : String) (media : LoadedMedia)
    (hbad : ¬(mediaURL = "" ∨ isWhitespaceOnly mediaURL = true))
    (hload : loadMedia env mediaURL = Except.ok media) :
    (setMediaURL env rafSupported handle st mediaURL).2.settings.mediaURL =
      mediaURL := by
  unfold setMediaURL
  rw [if_neg hbad, hload]
  dsimp only
  cases media with
  | image src =>
    split
    · rw [startDrawingLoop_settings]
    · rfl
  | video src =>
    split
    · rw [startDrawingLoop_settings]
    · rfl

/--
C4: a `setMediaURL` call that fails — because the argument is empty or
whitespace-only (invalid input), or because the asset load fails or times
out — rejects without mutating the session state: `settings.mediaURL` and
the loaded image/video source remain the prior ones.  Conversely a
successful call implies the new media loaded successfully, and only then is
`settings.mediaURL` the new URL.
-/
theorem setMediaURL_failure_preserves_state (env : String → Bool)
    (rafSupported : Bool) (handle : Nat) (st : MediaMockState)
    (mediaURL : String) :
    (mediaURL = "" ∨ isWhitespaceOnly mediaURL = true →
      setMediaURL env rafSupported handle st mediaURL =
        (Except.error "Invalid mediaURL: must be a non-empty string", st)) ∧
    (∀ e, ¬(mediaURL = "" ∨ isWhitespaceOnly mediaURL = true) →
      loadMedia env mediaURL = Except.error e →
      setMediaURL env rafSupported handle st mediaURL = (Except.error e, st)) ∧
    ((setMediaURL env rafSupported handle st mediaURL).1 = Except.ok () →
      (∃ media, loadMedia env mediaURL = Except.ok media) ∧
      (setMediaURL env rafSupported handle st mediaURL).2.settings.mediaURL =
        mediaURL) := by
  refine ⟨?_, ?_, ?_⟩
  · intro hbad
    unfold setMediaURL
    rw [if_pos hbad]
  · intro e hgood herr
    unfold setMediaURL
    rw [if_neg hgood, herr]
  · intro hok
    by_cases hbad : mediaURL = "" ∨ isWhitespaceOnly mediaURL = true
    · rw [(by unfold setMediaURL; rw [if_pos hbad] :
        setMediaURL env rafSupported handle st mediaURL =
          (Except.error "Invalid mediaURL: must be a non-empty string", st))]
        at hok
      cases hok
    · have hcases : (∃ e, loadMedia env mediaURL = Except.error e) ∨
          ∃ media, loadMedia env mediaURL = Except.ok media := by
        cases loadMedia env mediaURL with
        | error e => exact Or.inl ⟨e, rfl⟩
        | ok media => exact Or.inr ⟨media, rfl⟩
      rcases hcases with ⟨e, hload⟩ | ⟨media, hload⟩
      · rw [(by unfold setMediaURL; rw [if_neg hbad, hload] :
          setMediaURL env rafSupported handle st mediaURL = (Except.error e, st))]
          at hok
        cases hok
      · exact ⟨⟨media, hload⟩,
          setMediaURL_mediaURL_of_ok env rafSupported handle st mediaURL media
            hbad hload⟩

/-- Witness for C4: with a load oracle that always fails, swapping to
`pic.png` rejects with the load error and leaves the initial state
untouched. -/
theorem setMediaURL_failure_witness :
    setMediaURL (fun _ => false) true 1 initialState "pic.png" =
      (Except.error "Failed to load media: pic.png", initialState) :=
  (setMediaURL_failure_preserves_state (fun _ => false) true 1 initialState
    "pic.png").2.1 "Failed to load media: pic.png" (by decide) rfl

theorem mem_mapSet_self (m : List String) (key : String) :
    key ∈ mapSet m key := by
  unfold mapSet
  by_cases h : m.contains key
  · rw [if_pos h]
    simpa using h
  · rw [if_neg h]
    exact List.mem_append_right m (List.mem_singleton.mpr rfl)

theorem mem_mapSet_of_mem (m : List String) (key a : String) (h : a ∈ m) :
    a ∈ mapSet m key := by
  unfold mapSet
  split
  · exact h
  · exact List.mem_append_left _ h

/--
C5 counterexample: mocking a caller-built preset whose
`supportedConstraints` map differs from the initial (iPhone 12) one, the
intercepted `getSupportedConstraints` does not return the new preset's map
— it returns the stale `settings.constraints`, which `mock` never updates.
-/
theorem mock_getSupportedConstraints_stale :
    interceptedGetSupportedConstraints
        (mock initialState customPreset createDefaultMockOptions) ≠
      customPreset.supportedConstraints ∧
    interceptedGetSupportedConstraints
        (mock initialState customPreset createDefaultMockOptions) =
      defaultSupportedConstraints := by
  constructor
  · decide
  · rfl

/--
C5 (amended): after `mock(device)` with the get-supported-constraints
option enabled, the intercepted `getSupportedConstraints` entry point is
installed but returns the pre-existing `settings.constraints` map
(initially the iPhone 12 preset's `supportedConstraints`), which `mock`
does not update; it therefore equals `device.supportedConstraints` exactly
when that map coincides with the stored one — true for the built-in
presets, which share a single map, but not for every device preset.
-/
theorem mock_getSupportedConstraints_spec (st : MediaMockState)
    (device : DeviceConfig) (options : MockOptions)
    (henabled : options.getSupportedConstraints = true) :
    "getSupportedConstraints" ∈ (mock st device options).mapUnmockFunction ∧
    interceptedGetSupportedConstraints (mock st device options) =
      st.settings.constraints ∧
    (mock st device options).settings.device = device ∧
    (device.supportedConstraints = st.settings.constraints →
      interceptedGetSupportedConstraints (mock st device options) =
        device.supportedConstraints) := by
  obtain ⟨gum, gsc, ed⟩ := options
  cases henabled
  refine ⟨?_, ?_, ?_, ?_⟩
  · cases gum <;> cases ed <;>
      simp only [mock, if_true, if_false, Bool.false_eq_true] <;>
      first
        | exact mem_mapSet_self _ _
        | exact mem_mapSet_of_mem _ _ _ (mem_mapSet_self _ _)
  · cases gum <;> cases ed <;> rfl
  · cases gum <;> cases ed <;> rfl
  · intro h
    rw [h]
    cases gum <;> cases ed <;> rfl

/-- Witness for C5 (amended), at the initial state with the custom preset
and default options. -/
theorem mock_getSupportedConstraints_spec_witness :
    "getSupportedConstraints" ∈
      (mock initialState customPreset createDefaultMockOptions).mapUnmockFunction ∧
    interceptedGetSupportedConstraints
        (mock initialState customPreset createDefaultMockOptions) =
      initialState.settings.constraints :=
  ⟨(mock_getSupportedConstraints_spec initialState customPreset
      createDefaultMockOptions rfl).1,
   (mock_getSupportedConstraints_spec initialState customPreset
      createDefaultMockOptions rfl).2.1⟩

/--
C7: `unmock` is idempotent — N calls in a row (N ≥ 1) end in the same
state as one call — and that state has the interception map empty, both
render-loop handles cancelled, and the stream, media elements, canvas,
context and debug DOM artifacts disposed.  Every call is total (the source
guards every access), so no call in the sequence throws.
-/
theorem unmock_idempotent (st : MediaMockState) (n : Nat) (hn : 1 ≤ n) :
    unmock^[n] st = unmock st ∧
    (unmock st).mapUnmockFunction = [] ∧ (unmock st).rafId = none ∧
    (unmock st).intervalId = none ∧ (unmock st).currentStream = none ∧
    (unmock st).currentVideo = none ∧ (unmock st).currentImage = none ∧
    (unmock st).canvas = none ∧ (unmock st).ctx = none ∧
    (unmock st).canvasInDom = false ∧ (unmock st).imageInDom = false := by
  have hfix : ∀ s, unmock (unmock s) = unmock s := fun s => rfl
  refine ⟨?_, rfl, rfl, rfl, rfl, rfl, rfl, rfl, rfl, rfl, rfl⟩
  obtain ⟨k, rfl⟩ : ∃ k, n = k + 1 := ⟨n - 1, by omega⟩
  clear hn
  induction k with
  | zero => rfl
  | succ m ih =>
    rw [Function.iterate_succ_apply', ih]
    exact hfix st

/-- Witness for C7: three `unmock` calls from the initial state equal one. -/
theorem unmock_idempotent_witness :
    unmock^[3] initialState = unmock initialState :=
  (unmock_idempotent initialState 3 (by norm_num)).1

/--
C8: `addMockDevice(d)` makes subsequent intercepted enumerate-devices
calls include `d` and dispatches exactly one `devicechange` event; a
following `removeMockDevice(d.deviceId)` removes `d` from enumeration and
dispatches exactly one more (two total for the add+remove sequence).
-/
theorem addRemoveMockDevice_spec (st : MediaMockState)
    (d : MockMediaDeviceInfo) :
    d ∈ interceptedEnumerateDevices (addMockDevice st d) ∧
    (addMockDevice st d).dispatchedEvents.length =
      st.dispatchedEvents.length + 1 ∧
    d ∉ interceptedEnumerateDevices
        (removeMockDevice (addMockDevice st d) d.deviceId) ∧
    (removeMockDevice (addMockDevice st d) d.deviceId).dispatchedEvents.length =
      st.dispatchedEvents.length + 2 := by
  refine ⟨?_, ?_, ?_, ?_⟩
  · simp [addMockDevice, triggerDeviceChange, interceptedEnumerateDevices]
  · simp [addMockDevice, triggerDeviceChange]
  · intro hmem
    simp [removeMockDevice, addMockDevice, triggerDeviceChange,
      interceptedEnumerateDevices, List.mem_filter] at hmem
  · simp [removeMockDevice, addMockDevice, triggerDeviceChange]

theorem isEmpty_false_of_ne_nil {α : Type} {l : List α} (h : l ≠ []) :
    l.isEmpty = false := by
  cases l with
  | nil => exact absurd rfl h
  | cons a t => rfl

theorem applyTrackIdentity_fields (d : MockMediaDeviceInfo) (t : Track)
    (hl : d.label ≠ "") (hid : d.deviceId ≠ "") :
    (applyTrackIdentity (some d) t).label = d.label ∧
    (applyTrackIdentity (some d) t).id = d.deviceId := by
  have h1 : (d.label != "") = true := bne_iff_ne.mpr hl
  have h2 : (d.deviceId != "") = true := bne_iff_ne.mpr hid
  constructor <;> simp [applyTrackIdentity, h1, h2]

theorem getDeviceForFacingMode_matching (fm : String) (device : DeviceConfig)
    (hfm : fm ≠ "") (hmne : matchingFacingModeDevices fm device ≠ []) :
    getDeviceForFacingMode (some fm) device =
      (matchingFacingModeDevices fm device).getLast? := by
  have hvne : videoInputs device ≠ [] := by
    intro h
    apply hmne
    unfold matchingFacingModeDevices
    rw [h]
    rfl
  have hv : (videoInputs device).isEmpty = false := isEmpty_false_of_ne_nil hvne
  have hm : (matchingFacingModeDevices fm device).isEmpty = false :=
    isEmpty_false_of_ne_nil hmne
  have ht : facingModeTruthy (some fm) = true := bne_iff_ne.mpr hfm
  simp only [getDeviceForFacingMode, Option.getD_some, hv, ht, hm,
    Bool.not_true, Bool.false_eq_true, if_false]

theorem getDeviceForFacingMode_default (facingMode : Option String)
    (device : DeviceConfig) (hvne : videoInputs device ≠ [])
    (hfalsy : facingModeTruthy facingMode = false) :
    getDeviceForFacingMode facingMode device = (videoInputs device).head? := by
  have hv : (videoInputs device).isEmpty = false := isEmpty_false_of_ne_nil hvne
  simp only [getDeviceForFacingMode, hv, hfalsy, Bool.not_false,
    Bool.false_eq_true, if_false, if_true]

theorem getDeviceForFacingMode_nomatch (fm : String) (device : DeviceConfig)
    (hfm : fm ≠ "") (hvne : videoInputs device ≠ [])
    (hempty : matchingFacingModeDevices fm device = []) :
    getDeviceForFacingMode (some fm) device = (videoInputs device).head? := by
  have hv : (videoInputs device).isEmpty = false := isEmpty_false_of_ne_nil hvne
  have ht : facingModeTruthy (some fm) = true := bne_iff_ne.mpr hfm
  simp only [getDeviceForFacingMode, Option.getD_some, hv, ht, hempty,
    List.isEmpty_nil, Bool.not_true, Bool.false_eq_true, if_false, if_true]

/--
C6: for every intercepted `getUserMedia` call, if a facing mode is
requested and more than one video-input device-info entry of the active
preset advertises it, the synthesized track's label and id are taken from
the last matching entry; if no entry matches, or no facing mode was
requested, they are taken from the first video-input entry (whenever such
an entry exists and — as the label/id overrides are guarded by truthiness
— the selected entry's label and deviceId are non-empty).
-/
theorem mockStream_device_selection (video : Option VideoConstraints)
    (device : DeviceConfig) (track : Track) (fm : String)
    (d d0 : MockMediaDeviceInfo) :
    (getFacingModeFromConstraints video = some fm → fm ≠ "" →
      1 < (matchingFacingModeDevices fm device).length →
      (matchingFacingModeDevices fm device).getLast? = some d →
      d.label ≠ "" → d.deviceId ≠ "" →
      getDeviceForFacingMode (some fm) device = some d ∧
      (mockStreamTrackIdentity video device track).label = d.label ∧
      (mockStreamTrackIdentity video device track).id = d.deviceId) ∧
    (getFacingModeFromConstraints video = none →
      (videoInputs device).head? = some d0 →
      d0.label ≠ "" → d0.deviceId ≠ "" →
      getDeviceForFacingMode none device = some d0 ∧
      (mockStreamTrackIdentity video device track).label = d0.label ∧
      (mockStreamTrackIdentity video device track).id = d0.deviceId) ∧
    (getFacingModeFromConstraints video = some fm → fm ≠ "" →
      matchingFacingModeDevices fm device = [] →
      (videoInputs device).head? = some d0 →
      d0.label ≠ "" → d0.deviceId ≠ "" →
      getDeviceForFacingMode (some fm) device = some d0 ∧
      (mockStreamTrackIdentity video device track).label = d0.label ∧
      (mockStreamTrackIdentity video device track).id = d0.deviceId) := by
  refine ⟨?_, ?_, ?_⟩
  · intro hfm hne hlen hlast hl hid
    have hmne : matchingFacingModeDevices fm device ≠ [] := by
      intro h
      rw [h] at hlen
      simp at hlen
    have hsel : getDeviceForFacingMode (some fm) device = some d := by
      rw [getDeviceForFacingMode_matching fm device hne hmne, hlast]
    have hfields := applyTrackIdentity_fields d track hl hid
    refine ⟨hsel, ?_, ?_⟩
    · unfold mockStreamTrackIdentity
      rw [hfm, hsel]
      exact hfields.1
    · unfold mockStreamTrackIdentity
      rw [hfm, hsel]
      exact hfields.2
  · intro hnone hd0 hl hid
    have hvne : videoInputs device ≠ [] := by
      intro h
      rw [h] at hd0
      cases hd0
    have hsel : getDeviceForFacingMode none device = some d0 := by
      rw [getDeviceForFacingMode_default none device hvne rfl, hd0]
    have hfields := applyTrackIdentity_fields d0 track hl hid
    refine ⟨hsel, ?_, ?_⟩
    · unfold mockStreamTrackIdentity
      rw [hnone, hsel]
      exact hfields.1
    · unfold mockStreamTrackIdentity
      rw [hnone, hsel]
      exact hfields.2
  · intro hfm hne hempty hd0 hl hid
    have hvne : videoInputs device ≠ [] := by
      intro h
      rw [h] at hd0
      cases hd0
    have hsel : getDeviceForFacingMode (some fm) device = some d0 := by
      rw [getDeviceForFacingMode_nomatch fm device hne hvne hempty, hd0]
    have hfields := applyTrackIdentity_fields d0 track hl hid
    refine ⟨hsel, ?_, ?_⟩
    · unfold mockStreamTrackIdentity
      rw [hfm, hsel]
      exact hfields.1
    · unfold mockStreamTrackIdentity
      rw [hfm, hsel]
      exact hfields.2

/-- Witness for C6 on the iPhone 12 preset: requesting facing mode
`environment` (advertised by three back cameras) selects the last one,
`Back Camera`, and stamps its label and deviceId on the track. -/
theorem mockStream_device_selection_witness :
    getDeviceForFacingMode (some "environment") iPhone12 =
      some ⟨"C92FE814FCB4F2F856CDCBFD1C555429774DD0E2",
        "14122C2CE97B69A84360822AB87E8206C32B5BD8", "videoinput",
        "Back Camera", ⟨some ["environment"]⟩⟩ ∧
    (mockStreamTrackIdentity
        (some ⟨none, none, none, some (.str "environment")⟩) iPhone12
        ⟨"canvas-track", "t1"⟩).label = "Back Camera" ∧
    (mockStreamTrackIdentity
        (some ⟨none, none, none, some (.str "environment")⟩) iPhone12
        ⟨"canvas-track", "t1"⟩).id =
      "C92FE814FCB4F2F856CDCBFD1C555429774DD0E2" :=
  (mockStream_device_selection
    (some ⟨none, none, none, some (.str "environment")⟩) iPhone12
    ⟨"canvas-track", "t1"⟩ "environment"
    ⟨"C92FE814FCB4F2F856CDCBFD1C555429774DD0E2",
     "14122C2CE97B69A84360822AB87E8206C32B5BD8", "videoinput",
     "Back Camera", ⟨some ["environment"]⟩⟩
    ⟨"C92FE814FCB4F2F856CDCBFD1C555429774DD0E2",
     "14122C2CE97B69A84360822AB87E8206C32B5BD8", "videoinput",
     "Back Camera", ⟨some ["environment"]⟩⟩).1
    rfl (by decide) (by decide) (by decide) (by decide) (by decide)

theorem stopDrawingLoop_handles (s : MediaMockState) :
    (stopDrawingLoop s).rafId = none ∧ (stopDrawingLoop s).intervalId = none :=
  ⟨rfl, rfl⟩

theorem startDrawingLoop_handles (rafSupported : Bool) (handle : Nat)
    (s : MediaMockState) :
    (startDrawingLoop rafSupported handle s).2 = stopDrawingLoop s ∨
    (startDrawingLoop rafSupported handle s).2 =
      scheduleLoopHandle rafSupported handle (stopDrawingLoop s) := by
  unfold startDrawingLoop
  dsimp only
  split
  · split
    · exact Or.inl rfl
    · exact Or.inr rfl
  · split
    · exact Or.inl rfl
    · exact Or.inr rfl

theorem scheduleLoop_inv (rafSupported : Bool) (handle : Nat)
    (s : MediaMockState) :
    ¬((scheduleLoopHandle rafSupported handle (stopDrawingLoop s)).rafId.isSome
        = true ∧
      (scheduleLoopHandle rafSupported handle
        (stopDrawingLoop s)).intervalId.isSome = true) := by
  cases rafSupported <;> simp [scheduleLoopHandle, stopDrawingLoop]

theorem setMediaURL_handles (env : String → Bool) (rafSupported : Bool)
    (handle : Nat) (st : MediaMockState) (mediaURL : String) :
    ((setMediaURL env rafSupported handle st mediaURL).2.rafId = st.rafId ∧
      (setMediaURL env rafSupported handle st mediaURL).2.intervalId =
        st.intervalId) ∨
    ∃ s, (setMediaURL env rafSupported handle st mediaURL).2 =
        stopDrawingLoop s ∨
      (setMediaURL env rafSupported handle st mediaURL).2 =
        scheduleLoopHandle rafSupported handle (stopDrawingLoop s) := by
  unfold setMediaURL
  split
  · exact Or.inl ⟨rfl, rfl⟩
  · split
    · exact Or.inl ⟨rfl, rfl⟩
    · dsimp only
      split <;>
        (split <;>
          first
            | exact Or.inl ⟨rfl, rfl⟩
            | exact Or.inr ⟨_, startDrawingLoop_handles rafSupported handle _⟩)

theorem loopReachable_invariant (st : MediaMockState)
    (h : LoopReachable st) :
    ¬(st.rafId.isSome = true ∧ st.intervalId.isSome = true) := by
  induction h with
  | init => simp [initialState]
  | step s s' hs hstep ih =>
    cases hstep with
    | start raf hdl _ =>
      rcases startDrawingLoop_handles raf hdl s with h1 | h1
      · rw [h1]
        simp [stopDrawingLoop]
      · rw [h1]
        exact scheduleLoop_inv raf hdl s
    | stop _ => simp [stopDrawingLoop]
    | unmockStep _ =>
      simp [unmock, disableDebugMode, stopMockStream, stopDrawingLoop]
    | setMedia env raf hdl url _ =>
      rcases setMediaURL_handles env raf hdl s url with ⟨h1, h2⟩ | ⟨s0, h1 | h1⟩
      · rw [h1, h2]
        exact ih
      · rw [h1]
        simp [stopDrawingLoop]
      · rw [h1]
        exact scheduleLoop_inv raf hdl s0
    | tick hdl hdl0 _ hraf =>
      rintro ⟨h1, h2⟩
      exact ih ⟨by rw [hraf]; rfl, h2⟩
    | preserves _ s' hr hi =>
      rintro ⟨h1, h2⟩
      exact ih ⟨hr ▸ h1, hi ▸ h2⟩

/--
C9: in every reachable session state at most one render-loop handle is
active — the animation-frame handle (`rafId`) and the interval handle
(`intervalId`) are never both non-null — and every start of a drawing loop
first cancels any existing handle of either kind (via `stopDrawingLoop`,
which nulls both) before scheduling at most one new handle.
-/
theorem renderLoop_single_handle (st : MediaMockState)
    (hreach : LoopReachable st) :
    ¬(st.rafId.isSome = true ∧ st.intervalId.isSome = true) ∧
    ∀ (rafSupported : Bool) (handle : Nat) (s : MediaMockState),
      (stopDrawingLoop s).rafId = none ∧
      (stopDrawingLoop s).intervalId = none ∧
      ((startDrawingLoop rafSupported handle s).2 = stopDrawingLoop s ∨
        (startDrawingLoop rafSupported handle s).2 =
          scheduleLoopHandle rafSupported handle (stopDrawingLoop s)) :=
  ⟨loopReachable_invariant st hreach,
   fun rafSupported handle s =>
     ⟨rfl, rfl, startDrawingLoop_handles rafSupported handle s⟩⟩

/-- Witness for C9 at the initial (reachable) state. -/
theorem renderLoop_single_handle_witness :
    ¬(initialState.rafId.isSome = true ∧
      initialState.intervalId.isSome = true) :=
  (renderLoop_single_handle initialState LoopReachable.init).1

end MediaMock
